import Mathlib

/-!
Verification of the necoconeco sync client (`clientsync.go`).

The file shallowly embeds the client's data model and the three functions
`processSnapshots`, `postSnapshot` and `processActions`, together with the
orchestration in `main`.  External collaborators (queue management, the file
manager, the HTTP transport, the upload/download API) are represented by
explicit oracle records: each oracle field fixes the outcome the collaborator
would return, and the embedded functions thread those outcomes exactly the
way the Go code threads the corresponding error values.
-/

namespace NecoSync

/-- Normalized, slash-separated path relative to the sync root. -/
abbrev Path := String

/-- Modelled from the spec: the `status` field of a file record, one of
`{present, deleted}` (`utils.StatusDeleted` lives in the `internal/utils`
package, which is not part of the visible source). -/
inductive Status where
  | present
  | deleted
deriving DecidableEq, Repr

/-- Modelled from the spec: one snapshot record (`utils.FileMetadata`):
a status plus content metadata (size, modification time, or equivalent),
abstracted here as two natural numbers. -/
structure FileMetadata where
  status : Status
  size : Nat
  mtime : Nat
deriving DecidableEq, Repr

/-- A directory snapshot (`utils.DirectoryMetadata`): a finite map from
normalized paths to file records, embedded as a partial function.  Keys are
unique by construction. -/
abbrev Snapshot := Path → Option FileMetadata

/-- Embedding of `processSnapshots` (clientsync.go:126-147).  The Go code
builds a fresh map: the first loop adds, for every path of `lastSnapshot`
absent from `currentSnapshot`, last's record with its status overwritten to
`StatusDeleted`; the second loop writes every record of `currentSnapshot`
verbatim.  Per key the resulting map is therefore: current's record when the
path is in current, the tombstoned last record when it is only in last,
absent otherwise. -/
def processSnapshots (lastSnapshot currentSnapshot : Snapshot) : Snapshot :=
  fun path =>
    match currentSnapshot path with
    | some record => some record
    | none =>
      match lastSnapshot path with
      | some record => some { record with status := Status.deleted }
      | none => none

/-- The empty snapshot. -/
def emptySnap : Snapshot := fun _ => none

/-- A one-record snapshot whose single record is already a tombstone. -/
def deletedCurrent : Snapshot :=
  fun p => if p = "a.txt" then some ⟨Status.deleted, 0, 0⟩ else none

/-- C1 (as stated) fails: a snapshot record is allowed to carry status
`deleted`, and `processSnapshots` copies every record of `current` verbatim,
so when `current` itself holds a deleted-status record at a path, that path
appears with status deleted in the merged snapshot although it is a key of
`current` and not a key of `last`. -/
theorem tombstone_iff_counterexample :
    ¬ ((∃ r, processSnapshots emptySnap deletedCurrent "a.txt" = some r ∧
          r.status = Status.deleted) ↔
        (emptySnap "a.txt").isSome ∧ deletedCurrent "a.txt" = none) := by
  intro h
  have hdel : ∃ r, processSnapshots emptySnap deletedCurrent "a.txt" = some r ∧
      r.status = Status.deleted := ⟨⟨Status.deleted, 0, 0⟩, by decide, rfl⟩
  have := (h.mp hdel).1
  simp [emptySnap] at this

/-- C1 (amended): provided every record of `current` has status other than
`deleted` — as holds for snapshots captured from the live filesystem — a path
appears with status deleted in the merged snapshot produced by
`processSnapshots` iff it is a key of `last` and not a key of `current`;
in particular a tombstone is never emitted for a path absent from `last`. -/
theorem tombstone_iff (lastSnapshot currentSnapshot : Snapshot) (p : Path)
    (hcur : ∀ q r, currentSnapshot q = some r → r.status ≠ Status.deleted) :
    (∃ r, processSnapshots lastSnapshot currentSnapshot p = some r ∧
        r.status = Status.deleted) ↔
      (lastSnapshot p).isSome ∧ currentSnapshot p = none := by
  unfold processSnapshots
  cases hc : currentSnapshot p with
  | some rc =>
    simp only [hc]
    constructor
    · rintro ⟨r, hr, hs⟩
      exact absurd hs (by cases hr; exact hcur p rc hc)
    · rintro ⟨-, h⟩
      exact absurd h (by simp)
  | none =>
    cases hl : lastSnapshot p with
    | some rl =>
      simp [hc, hl]
    | none =>
      simp [hc, hl]

/-- Witness for `tombstone_iff` at a concrete pair of snapshots. -/
theorem tombstone_iff_witness :
    (∃ r, processSnapshots
        (fun p => if p = "a.txt" then some ⟨Status.present, 3, 5⟩ else none)
        emptySnap "a.txt" = some r ∧ r.status = Status.deleted) ↔
      ((fun p => if p = "a.txt" then some (⟨Status.present, 3, 5⟩ : FileMetadata)
          else none) "a.txt").isSome ∧ emptySnap "a.txt" = none :=
  tombstone_iff
    (fun p => if p = "a.txt" then some ⟨Status.present, 3, 5⟩ else none)
    emptySnap "a.txt"
    (by intro q r h; simp [emptySnap] at h)

/-- C2: for every path present in both snapshots, the merged snapshot maps
that path to exactly `current`'s record — never `last`'s record and never the
tombstone built from it. -/
theorem override_precedence (lastSnapshot currentSnapshot : Snapshot)
    (p : Path) (hl : (lastSnapshot p).isSome) (hc : (currentSnapshot p).isSome) :
    processSnapshots lastSnapshot currentSnapshot p = currentSnapshot p := by
  unfold processSnapshots
  cases h : currentSnapshot p with
  | some r => rfl
  | none => rw [h] at hc; simp at hc

/-- Witness for `override_precedence` at a concrete pair of snapshots. -/
theorem override_precedence_witness :
    processSnapshots
      (fun p => if p = "b.txt" then some ⟨Status.present, 1, 1⟩ else none)
      (fun p => if p = "b.txt" then some ⟨Status.present, 2, 9⟩ else none)
      "b.txt" =
    (fun p => if p = "b.txt" then some (⟨Status.present, 2, 9⟩ : FileMetadata)
        else none) "b.txt" :=
  override_precedence
    (fun p => if p = "b.txt" then some ⟨Status.present, 1, 1⟩ else none)
    (fun p => if p = "b.txt" then some ⟨Status.present, 2, 9⟩ else none)
    "b.txt" (by simp) (by simp)

/-- C3: the key set of the merged snapshot is exactly the union of the key
sets of `last` and `current` — a path is present in the result iff it is
present in at least one input (keys are unique by construction of the map). -/
theorem union_completeness (lastSnapshot currentSnapshot : Snapshot) (p : Path) :
    (processSnapshots lastSnapshot currentSnapshot p).isSome ↔
      (lastSnapshot p).isSome ∨ (currentSnapshot p).isSome := by
  unfold processSnapshots
  cases hc : currentSnapshot p with
  | some rc => simp [hc]
  | none =>
    cases hl : lastSnapshot p with
    | some rl => simp [hl]
    | none => simp [hl]

/-- Modelled from the spec: the action tag of a plan directive
(`utils.ActionUpload` / `ActionDownload` / `ActionMkdir` are string constants
of the `internal/utils` package, not part of the visible source).  `other`
stands for any string matched by the `default` branch of the switch. -/
inductive Act where
  | upload
  | download
  | mkdir
  | other (tag : String)
deriving DecidableEq, Repr

/-- The server's action plan (`utils.SyncActionMetadata.Files`): directives
keyed by normalized path, embedded as an association list (one entry per key;
iteration order of the Go map is immaterial to the properties below). -/
abbrev Plan := List (Path × Act)

/-- Oracle for the external capabilities invoked by `processActions`: whether
the upload/download/mkdir call for a given path returns an error, whether the
final `CreateDirectorySnapshot` call fails, and the snapshot it would persist
when it succeeds. -/
structure ExecEnv where
  uploadFails : Path → Bool
  downloadFails : Path → Bool
  mkdirFails : Path → Bool
  captureFails : Bool
  recaptured : Snapshot

/-- Observable events of one `processActions` run: each capability call with
its outcome, each unknown-action log, and the final snapshot capture. -/
inductive Event where
  | uploadAttempt (p : Path) (ok : Bool)
  | downloadAttempt (p : Path) (ok : Bool)
  | mkdirAttempt (p : Path) (ok : Bool)
  | unknownAction (p : Path) (tag : String)
  | snapshotCapture (ok : Bool)
deriving DecidableEq, Repr

/-- One iteration of the dispatch switch (clientsync.go:205-238): upload and
mkdir resolve the path and call the capability, download calls it directly,
and any other tag only logs an unknown-action event; an error in a call is
logged and nothing else. -/
def runDirective (env : ExecEnv) : Path × Act → Event
  | (p, Act.upload) => Event.uploadAttempt p (!env.uploadFails p)
  | (p, Act.download) => Event.downloadAttempt p (!env.downloadFails p)
  | (p, Act.mkdir) => Event.mkdirAttempt p (!env.mkdirFails p)
  | (p, Act.other tag) => Event.unknownAction p tag

/-- Embedding of `processActions` (clientsync.go:195-249) as the list of
events it produces.  A `nil` plan returns immediately (lines 196-199, before
the snapshot capture); otherwise every directive is dispatched in turn — no
branch of the switch returns or breaks — and `CreateDirectorySnapshot` is
called once afterwards (lines 241-248). -/
def processActions (env : ExecEnv) : Option Plan → List Event
  | none => []
  | some plan => plan.map (runDirective env) ++ [Event.snapshotCapture (!env.captureFails)]

/-- A concrete capability oracle for closed statements. -/
def execEnv0 : ExecEnv :=
  { uploadFails := fun _ => false
    downloadFails := fun _ => false
    mkdirFails := fun _ => false
    captureFails := false
    recaptured := emptySnap }

/-- C4 (as stated) fails: on a `nil` action plan `processActions` returns at
its first guard, before the snapshot-capture code is reached, so no fresh
snapshot is captured — the run produces no event at all, in particular no
`snapshotCapture`. -/
theorem null_plan_counterexample :
    processActions execEnv0 none = [] ∧
      Event.snapshotCapture true ∉ processActions execEnv0 none ∧
      Event.snapshotCapture false ∉ processActions execEnv0 none := by
  refine ⟨rfl, ?_, ?_⟩ <;> simp [processActions]

/-- C4 (amended): on a null/absent action plan, `processActions` performs no
upload, download, or mkdir directive work, and it also does **not** trigger a
fresh snapshot capture — it returns before the capture step, producing no
event at all.  The capture runs only for non-null plans. -/
theorem null_plan_no_work (env : ExecEnv) :
    processActions env none = [] := rfl

/-- C7: a failing directive never aborts the remainder of the plan — even
when the call for some path `P` fails, the event of every directive of the
plan still occurs in the run, and the final snapshot capture still occurs. -/
theorem partial_failure_isolation (env : ExecEnv) (plan : Plan)
    (P : Path) (d : Act) (hmem : (P, d) ∈ plan)
    (hfail : runDirective env (P, d) = Event.uploadAttempt P false ∨
      runDirective env (P, d) = Event.downloadAttempt P false ∨
      runDirective env (P, d) = Event.mkdirAttempt P false) :
    (∀ x ∈ plan, runDirective env x ∈ processActions env (some plan)) ∧
      Event.snapshotCapture (!env.captureFails) ∈ processActions env (some plan) := by
  constructor
  · intro x hx
    exact List.mem_append_left _ (List.mem_map_of_mem (runDirective env) hx)
  · exact List.mem_append_right _ (List.mem_singleton.mpr rfl)

/-- Witness for `partial_failure_isolation`: a two-directive plan in which
the upload of `a.txt` fails; the download of `b.txt` is still attempted and
the snapshot is still captured. -/
theorem partial_failure_isolation_witness :
    (∀ x ∈ [("a.txt", Act.upload), ("b.txt", Act.download)],
        runDirective
          { execEnv0 with uploadFails := fun _ => true } x ∈
          processActions { execEnv0 with uploadFails := fun _ => true }
            (some [("a.txt", Act.upload), ("b.txt", Act.download)])) ∧
      Event.snapshotCapture
          (!({ execEnv0 with uploadFails := fun _ => true } : ExecEnv).captureFails) ∈
        processActions { execEnv0 with uploadFails := fun _ => true }
          (some [("a.txt", Act.upload), ("b.txt", Act.download)]) :=
  partial_failure_isolation { execEnv0 with uploadFails := fun _ => true }
    [("a.txt", Act.upload), ("b.txt", Act.download)]
    "a.txt" Act.upload (by simp) (Or.inl rfl)

/-- C9: a directive carrying an unrecognized action tag produces exactly an
unknown-action event — no capability call — while every directive of the plan
is still processed and the final snapshot capture still occurs; the unknown
tag never aborts the run. -/
theorem unknown_action_skipped (env : ExecEnv) (plan : Plan)
    (P : Path) (tag : String) (hmem : (P, Act.other tag) ∈ plan) :
    runDirective env (P, Act.other tag) = Event.unknownAction P tag ∧
      Event.unknownAction P tag ∈ processActions env (some plan) ∧
      (∀ x ∈ plan, runDirective env x ∈ processActions env (some plan)) ∧
      Event.snapshotCapture (!env.captureFails) ∈ processActions env (some plan) := by
  refine ⟨rfl, ?_, ?_, ?_⟩
  · exact List.mem_append_left _ (List.mem_map_of_mem (runDirective env) hmem)
  · intro x hx
    exact List.mem_append_left _ (List.mem_map_of_mem (runDirective env) hx)
  · exact List.mem_append_right _ (List.mem_singleton.mpr rfl)

/-- Witness for `unknown_action_skipped`: a plan whose first directive has
the unrecognized tag `"rename"` and whose second is a mkdir. -/
theorem unknown_action_skipped_witness :
    runDirective execEnv0 ("a.txt", Act.other "rename") =
        Event.unknownAction "a.txt" "rename" ∧
      Event.unknownAction "a.txt" "rename" ∈
        processActions execEnv0
          (some [("a.txt", Act.other "rename"), ("d", Act.mkdir)]) ∧
      (∀ x ∈ [("a.txt", Act.other "rename"), ("d", Act.mkdir)],
        runDirective execEnv0 x ∈
          processActions execEnv0
            (some [("a.txt", Act.other "rename"), ("d", Act.mkdir)])) ∧
      Event.snapshotCapture (!execEnv0.captureFails) ∈
        processActions execEnv0
          (some [("a.txt", Act.other "rename"), ("d", Act.mkdir)]) :=
  unknown_action_skipped execEnv0
    [("a.txt", Act.other "rename"), ("d", Act.mkdir)]
    "a.txt" "rename" (by simp)

/-- The failure modes of `postSnapshot`, one per early return of
clientsync.go:149-193: JSON marshalling, request construction, the HTTP
round-trip, reading the response body, and unmarshalling the response. -/
inductive PostErr where
  | marshal
  | request
  | transport
  | readBody
  | decode
deriving DecidableEq, Repr

/-- Oracle for one `postSnapshot` call: which of its five fallible steps
fail, and the `sync_action_metadata` field of the decoded response when all
succeed (`none` models a JSON `null` / absent plan). -/
structure PostEnv where
  marshalFails : Bool
  requestFails : Bool
  doFails : Bool
  readFails : Bool
  unmarshalFails : Bool
  responsePlan : Option Plan

/-- Embedding of `postSnapshot` (clientsync.go:149-193): each fallible step
is tried in source order and any failure returns that error immediately; on
success the response's `SyncActionMetadata` pointer is returned.  The
submitted snapshot is carried as an argument exactly as in the source; its
content does not influence which step fails. -/
def postSnapshot (pe : PostEnv) (finalSnapshot : Snapshot) :
    Except PostErr (Option Plan) :=
  if pe.marshalFails then Except.error PostErr.marshal
  else if pe.requestFails then Except.error PostErr.request
  else if pe.doFails then Except.error PostErr.transport
  else if pe.readFails then Except.error PostErr.readBody
  else if pe.unmarshalFails then Except.error PostErr.decode
  else Except.ok pe.responsePlan

/-- `true` iff the `postSnapshot` oracle makes some step fail. -/
def PostEnv.fails (pe : PostEnv) : Bool :=
  pe.marshalFails || pe.requestFails || pe.doFails || pe.readFails ||
    pe.unmarshalFails

/-- Oracle for one whole sync cycle (`main`, clientsync.go:33-124): outcomes
of the AMQP connection, queue declaration and purge, the triple returned by
`GetLastSnapshot` (snapshot, exists flag, error), the outcome of
`GetLocalMetadata`, the `postSnapshot` oracle, the capability oracle for
`processActions`, and the last-snapshot state persisted on disk before the
run. -/
structure MainEnv where
  connectFails : Bool
  declareFails : Bool
  purgeFails : Bool
  lastSnap : Snapshot
  lastExists : Bool
  lastErrored : Bool
  currentFails : Bool
  currentSnap : Snapshot
  post : PostEnv
  exec : ExecEnv
  diskLast : Option Snapshot

/-- Observable outcome of one sync cycle. -/
structure MainResult where
  declareAttempted : Bool
  purgeAttempted : Bool
  lastLoaded : Bool
  lastReadErrLogged : Bool
  currentComputed : Bool
  submitted : Option Snapshot
  events : List Event
  diskAfter : Option Snapshot

/-- Embedding of `main` (clientsync.go:33-124).  Connection, declaration and
purge failures each return immediately (lines 55-80).  The last-snapshot read
error is only logged (lines 85-88) and the flow continues; a
`GetLocalMetadata` error returns (lines 93-97).  When a last snapshot exists
the merged snapshot is submitted, otherwise the current one (lines 104-120);
a `postSnapshot` error returns before any action.  Otherwise the plan is
executed and the disk's last snapshot changes exactly when the final capture
succeeds. -/
def main (env : MainEnv) : MainResult :=
  if env.connectFails then
    ⟨false, false, false, false, false, none, [], env.diskLast⟩
  else if env.declareFails then
    ⟨true, false, false, false, false, none, [], env.diskLast⟩
  else if env.purgeFails then
    ⟨true, true, false, false, false, none, [], env.diskLast⟩
  else if env.currentFails then
    ⟨true, true, true, env.lastErrored, false, none, [], env.diskLast⟩
  else
    let finalSnapshot :=
      if env.lastExists then processSnapshots env.lastSnap env.currentSnap
      else env.currentSnap
    match postSnapshot env.post finalSnapshot with
    | Except.error _ =>
      ⟨true, true, true, env.lastErrored, true, some finalSnapshot, [],
        env.diskLast⟩
    | Except.ok plan =>
      let evs := processActions env.exec plan
      ⟨true, true, true, env.lastErrored, true, some finalSnapshot, evs,
        if Event.snapshotCapture true ∈ evs then some env.exec.recaptured
        else env.diskLast⟩

/-- A concrete cycle oracle for closed statements: everything succeeds, no
last snapshot exists, and the server answers with an empty plan. -/
def mainEnv0 : MainEnv :=
  { connectFails := false
    declareFails := false
    purgeFails := false
    lastSnap := emptySnap
    lastExists := false
    lastErrored := false
    currentFails := false
    currentSnap := fun p => if p = "c.txt" then some ⟨Status.present, 7, 4⟩ else none
    post :=
      { marshalFails := false
        requestFails := false
        doFails := false
        readFails := false
        unmarshalFails := false
        responsePlan := some [] }
    exec := execEnv0
    diskLast := none }

/-- C5: when any step of snapshot submission fails — marshalling, request
construction, transport, reading or decoding the response — the cycle aborts
at that point: no action directive of any kind is attempted and the persisted
last-snapshot state on disk is exactly what it was before the run. -/
theorem submission_failure_aborts (env : MainEnv)
    (h1 : env.connectFails = false) (h2 : env.declareFails = false)
    (h3 : env.purgeFails = false) (h4 : env.currentFails = false)
    (hpost : env.post.fails = true) :
    (main env).events = [] ∧ (main env).diskAfter = env.diskLast := by
  have herr : ∀ s, ∃ e, postSnapshot env.post s = Except.error e := by
    intro s
    unfold postSnapshot
    unfold PostEnv.fails at hpost
    by_cases hm : env.post.marshalFails <;>
      by_cases hr : env.post.requestFails <;>
        by_cases hd : env.post.doFails <;>
          by_cases hb : env.post.readFails <;>
            by_cases hu : env.post.unmarshalFails <;>
              simp_all
  unfold main
  rw [h1, h2, h3, h4]
  simp only [if_false]
  obtain ⟨e, he⟩ := herr
    (if env.lastExists then processSnapshots env.lastSnap env.currentSnap
      else env.currentSnap)
  rw [he]
  exact ⟨rfl, rfl⟩

/-- Witness for `submission_failure_aborts`: the transport step fails. -/
theorem submission_failure_aborts_witness :
    (main { mainEnv0 with post := { mainEnv0.post with doFails := true } }).events = [] ∧
      (main { mainEnv0 with post := { mainEnv0.post with doFails := true } }).diskAfter =
        ({ mainEnv0 with post := { mainEnv0.post with doFails := true } } : MainEnv).diskLast :=
  submission_failure_aborts
    { mainEnv0 with post := { mainEnv0.post with doFails := true } }
    rfl rfl rfl rfl rfl

/-- C6: on a first run — no last snapshot exists — the snapshot submitted to
the server is exactly the freshly computed current snapshot, unmodified. -/
theorem first_run_equivalence (env : MainEnv)
    (h1 : env.connectFails = false) (h2 : env.declareFails = false)
    (h3 : env.purgeFails = false) (h4 : env.currentFails = false)
    (hexists : env.lastExists = false) :
    (main env).submitted = some env.currentSnap := by
  unfold main
  rw [h1, h2, h3, h4]
  cases hp : postSnapshot env.post
      (if env.lastExists = true then processSnapshots env.lastSnap env.currentSnap
        else env.currentSnap) <;>
    (simp only [hexists, Bool.false_eq_true, if_false] at hp ⊢; rw [hp])

/-- Witness for `first_run_equivalence` at the concrete all-success oracle. -/
theorem first_run_equivalence_witness :
    (main mainEnv0).submitted = some mainEnv0.currentSnap :=
  first_run_equivalence mainEnv0 rfl rfl rfl rfl rfl

/-- C8: a queue-purge error aborts the cycle immediately — the last snapshot
is never loaded, the current snapshot is never computed, nothing is submitted
and no action event occurs, the disk untouched; a queue-declaration error
aborts likewise, before the purge is even attempted. -/
theorem queue_failure_fatal (env : MainEnv) (h1 : env.connectFails = false) :
    (env.purgeFails = true → env.declareFails = false →
      main env = ⟨true, true, false, false, false, none, [], env.diskLast⟩) ∧
    (env.declareFails = true →
      main env = ⟨true, false, false, false, false, none, [], env.diskLast⟩) := by
  constructor
  · intro hp hd
    unfold main
    rw [h1, hd, hp]
    rfl
  · intro hd
    unfold main
    rw [h1, hd]
    rfl

/-- Witness for `queue_failure_fatal`: a purge failure with declaration
succeeding. -/
theorem queue_failure_fatal_witness :
    (({ mainEnv0 with purgeFails := true } : MainEnv).purgeFails = true →
      ({ mainEnv0 with purgeFails := true } : MainEnv).declareFails = false →
      main { mainEnv0 with purgeFails := true } =
        ⟨true, true, false, false, false, none, [],
          ({ mainEnv0 with purgeFails := true } : MainEnv).diskLast⟩) ∧
    (({ mainEnv0 with purgeFails := true } : MainEnv).declareFails = true →
      main { mainEnv0 with purgeFails := true } =
        ⟨true, false, false, false, false, none, [],
          ({ mainEnv0 with purgeFails := true } : MainEnv).diskLast⟩) :=
  queue_failure_fatal { mainEnv0 with purgeFails := true } rfl

/-- C10: an error returned by `GetLastSnapshot` is only logged and never
aborts the cycle — the run still computes the current snapshot and submits,
the submitted snapshot is decided solely by the `exists` flag (merged when it
is set, current as-is otherwise), and flipping the error bit changes nothing
but the logged flag. -/
theorem last_snapshot_error_nonfatal (env : MainEnv)
    (h1 : env.connectFails = false) (h2 : env.declareFails = false)
    (h3 : env.purgeFails = false) (h4 : env.currentFails = false) :
    (main env).currentComputed = true ∧
      (main env).submitted =
        some (if env.lastExists then processSnapshots env.lastSnap env.currentSnap
          else env.currentSnap) ∧
      (main { env with lastErrored := true }).submitted = (main env).submitted ∧
      (main { env with lastErrored := true }).events = (main env).events ∧
      (main { env with lastErrored := true }).diskAfter = (main env).diskAfter := by
  have hform : ∀ b : Bool,
      (main { env with lastErrored := b }).currentComputed = true ∧
        (main { env with lastErrored := b }).submitted =
          some (if env.lastExists then
              processSnapshots env.lastSnap env.currentSnap
            else env.currentSnap) ∧
        (main { env with lastErrored := b }).events =
          (match postSnapshot env.post
              (if env.lastExists then
                processSnapshots env.lastSnap env.currentSnap
              else env.currentSnap) with
            | Except.error _ => []
            | Except.ok plan => processActions env.exec plan) ∧
        (main { env with lastErrored := b }).diskAfter =
          (match postSnapshot env.post
              (if env.lastExists then
                processSnapshots env.lastSnap env.currentSnap
              else env.currentSnap) with
            | Except.error _ => env.diskLast
            | Except.ok plan =>
              if Event.snapshotCapture true ∈ processActions env.exec plan then
                some env.exec.recaptured
              else env.diskLast) := by
    intro b
    unfold main
    simp only [h1, h2, h3, h4, if_false]
    cases postSnapshot env.post
        (if env.lastExists then processSnapshots env.lastSnap env.currentSnap
          else env.currentSnap) <;>
      exact ⟨rfl, rfl, rfl, rfl⟩
  have henv : { env with lastErrored := env.lastErrored } = env := rfl
  obtain ⟨c₁, s₁, e₁, d₁⟩ := hform true
  obtain ⟨c₂, s₂, e₂, d₂⟩ := hform env.lastErrored
  rw [henv] at c₂ s₂ e₂ d₂
  exact ⟨c₂, s₂, s₁.trans s₂.symm, e₁.trans e₂.symm, d₁.trans d₂.symm⟩

/-- Witness for `last_snapshot_error_nonfatal`: the all-success oracle with
an existing last snapshot. -/
theorem last_snapshot_error_nonfatal_witness :
    (main { mainEnv0 with lastExists := true }).currentComputed = true ∧
      (main { mainEnv0 with lastExists := true }).submitted =
        some (if ({ mainEnv0 with lastExists := true } : MainEnv).lastExists then
            processSnapshots ({ mainEnv0 with lastExists := true } : MainEnv).lastSnap
              ({ mainEnv0 with lastExists := true } : MainEnv).currentSnap
          else ({ mainEnv0 with lastExists := true } : MainEnv).currentSnap) ∧
      (main { { mainEnv0 with lastExists := true } with lastErrored := true }).submitted =
        (main { mainEnv0 with lastExists := true }).submitted ∧
      (main { { mainEnv0 with lastExists := true } with lastErrored := true }).events =
        (main { mainEnv0 with lastExists := true }).events ∧
      (main { { mainEnv0 with lastExists := true } with lastErrored := true }).diskAfter =
        (main { mainEnv0 with lastExists := true }).diskAfter :=
  last_snapshot_error_nonfatal { mainEnv0 with lastExists := true }
    rfl rfl rfl rfl

end NecoSync
